import Mathlib

/-!
Verification of the Restaurant-POS backend (Node/Express + PostgreSQL).

The state of the system is the relational store declared in
`backend/init.sql`; the operations are shallow embeddings of the route
handlers in `backend/routes/orderRoutes.js`, the payments route
(`POST /api/payments`), and `backend/routes/shiftRoutes.js`.  Monetary
values (SQL `DECIMAL`) and timestamps are modelled as exact rationals;
SQL `NULL` becomes `Option`; a route handler that can fail (and hence
roll back its transaction) returns `Except String`.
-/

namespace RestaurantPos

/-! ## Data model, translated from backend/init.sql -/

/-- A row of `menu_items` (only the columns the embedded routes read). -/
structure MenuItemRow where
  item_id : Nat
  item_name : String
  price : ℚ
deriving DecidableEq

/-- A row of `orders`. -/
structure OrderRow where
  order_id : Nat
  table_number : Option String
  status : String
  total_amount : ℚ
  discount_amount : ℚ
  final_amount : ℚ
  cashier_id : Option Nat
  notes : Option String
deriving DecidableEq

/-- A row of `order_items`. -/
structure OrderItemRow where
  order_id : Nat
  item_id : Nat
  item_name : String
  quantity : ℚ
  unit_price : ℚ
  item_total : ℚ
  notes : Option String
deriving DecidableEq

/-- A row of `payments`. -/
structure PaymentRow where
  order_id : Nat
  payment_method : String
  amount : ℚ
  transaction_id : Option String
  cashier_id : Option Nat
  notes : Option String
deriving DecidableEq

/-- A row of `discounts`. -/
structure DiscountRow where
  discount_id : Nat
  discount_name : String
  discount_type : String
  value : ℚ
  is_active : Bool
  min_amount_threshold : Option ℚ
  valid_from : Option ℚ
  valid_until : Option ℚ
deriving DecidableEq

/-- A row of `order_discounts`. -/
structure OrderDiscountRow where
  order_id : Nat
  discount_id : Nat
  applied_value : ℚ
  applied_by_user_id : Option Nat
deriving DecidableEq

/-- A row of `cashier_shifts`. -/
structure ShiftRow where
  shift_id : Nat
  user_id : Nat
  shift_start : ℚ
  shift_end : Option ℚ
  opening_cash : ℚ
  closing_cash : Option ℚ
  cash_in : ℚ
  cash_out : ℚ
  sales_amount_cash : ℚ
  sales_amount_card : ℚ
  notes : Option String
  reconciled : Bool
deriving DecidableEq

/-- The relational store.  `next_order_id` / `next_shift_id` model the
`SERIAL` key generators of `orders` and `cashier_shifts`. -/
structure DB where
  menu_items : List MenuItemRow
  orders : List OrderRow
  order_items : List OrderItemRow
  payments : List PaymentRow
  discounts : List DiscountRow
  order_discounts : List OrderDiscountRow
  cashier_shifts : List ShiftRow
  next_order_id : Nat
  next_shift_id : Nat
deriving DecidableEq

/-- One item of the `items` array of a create/update order request body. -/
structure ItemReq where
  item_id : Nat
  quantity : ℚ
  unit_price : ℚ
  notes : Option String
deriving DecidableEq

/-- `COALESCE(a, b)` of SQL, for the partial-update route parameters. -/
def coalesce {α : Type} (a b : Option α) : Option α :=
  match a with
  | some x => some x
  | none => b

/-- A transaction result: committing `.ok db` yields `db`, an error rolls
the whole transaction back, leaving the store as it was. -/
def commit (db : DB) : Except String DB → DB
  | Except.ok db' => db'
  | Except.error _ => db

/-- Rounding to the currency minor unit (2 decimal places): the rounding
PostgreSQL applies when a value is written into one of the
`DECIMAL(10, 2)` columns of init.sql (numeric assignment casts round
half away from zero).  The JavaScript layer itself computes exactly and
never rounds; quantization happens at each store write.  The same
function serves to state the spec claims that mention `round2`. -/
def round2 (x : ℚ) : ℚ :=
  if x < 0 then -((Int.floor (-x * 100 + 1 / 2) : ℚ) / 100)
  else (Int.floor (x * 100 + 1 / 2) : ℚ) / 100

/-! ## Order routes, translated from backend/routes/orderRoutes.js -/

/-- `calculateOrderTotals` of orderRoutes.js: sums `quantity * unit_price`
over the (quantity, unit_price) projections of the item rows. -/
def calculateOrderTotals (orderItems : List (ℚ × ℚ)) : ℚ :=
  orderItems.foldl (fun acc qp => acc + qp.1 * qp.2) 0

/-- The storage constraints an `order_items` INSERT must satisfy: the
INTEGER `quantity` column only accepts whole numbers, init.sql's
`CHECK (quantity > 0)` guards the stored quantity, and
`CHECK (unit_price >= 0)` is evaluated on the DECIMAL(10, 2)-rounded
value that is stored. -/
def itemRowOk (i : ItemReq) : Prop :=
  i.quantity.den = 1 ∧ 0 < i.quantity ∧ 0 ≤ round2 i.unit_price

instance (i : ItemReq) : Decidable (itemRowOk i) :=
  inferInstanceAs (Decidable (i.quantity.den = 1 ∧ 0 < i.quantity ∧ 0 ≤ round2 i.unit_price))

/-- The per-item loop shared by `POST /api/orders` and the items branch of
`PUT /api/orders/:id`: resolve each `item_id` against `menu_items`
(snapshotting `item_name`) and build the `order_items` rows.  An unknown
`item_id` raises in JavaScript; a row violating the `order_items`
storage constraints makes the INSERT itself fail (the three distinct
database errors are modelled with one message).  Either failure aborts
the surrounding transaction.  The stored `unit_price` and `item_total`
are the DECIMAL(10, 2) roundings of the request values. -/
def resolveOrderItems (menu : List MenuItemRow) (oid : Nat) :
    List ItemReq → Except String (List OrderItemRow)
  | [] => Except.ok []
  | item :: rest =>
    match menu.find? (fun m => m.item_id == item.item_id) with
    | none => Except.error "Menu item not found."
    | some m =>
      if itemRowOk item then
        (resolveOrderItems menu oid rest).map
          (fun rows =>
            { order_id := oid, item_id := item.item_id, item_name := m.item_name,
              quantity := item.quantity, unit_price := round2 item.unit_price,
              item_total := round2 (item.quantity * item.unit_price),
              notes := item.notes } :: rows)
      else Except.error "order_items constraint violated"

/-- `POST /api/orders` (createOrder): insert an order with
status 'pending', `total_amount = final_amount =` the computed total
(stored at DECIMAL(10, 2) precision) and the schema-default
`discount_amount = 0`, then insert one `order_items` row per request
item; any resolution or constraint failure rolls back everything. -/
def createOrder (db : DB) (table_number : Option String) (cashier_id : Option Nat)
    (notes : Option String) (items : List ItemReq) : Except String DB :=
  let total_amount := calculateOrderTotals (items.map fun i => (i.quantity, i.unit_price))
  let oid := db.next_order_id
  let newOrder : OrderRow :=
    { order_id := oid, table_number := table_number, status := "pending",
      total_amount := round2 total_amount, discount_amount := 0,
      final_amount := round2 total_amount,
      cashier_id := cashier_id, notes := notes }
  match resolveOrderItems db.menu_items oid items with
  | Except.error e => Except.error e
  | Except.ok rows =>
    Except.ok { db with
      orders := db.orders ++ [newOrder],
      order_items := db.order_items ++ rows,
      next_order_id := oid + 1 }

/-- The discount arithmetic of `PUT /api/orders/:id`: `discount_amount` is
initialised to 0 and set for 'percentage' and 'fixed_amount' types; any
other type leaves it at 0. -/
def applyDiscountType (d : DiscountRow) (newTotal : ℚ) : ℚ :=
  if d.discount_type == "percentage" then newTotal * (d.value / 100)
  else if d.discount_type == "fixed_amount" then d.value
  else 0

/-- The items phase of `PUT /api/orders/:id`: a non-empty `items` array
(`items && items.length > 0`) deletes the order's item rows and
re-resolves and re-inserts the new ones; otherwise the stored rows are
kept and the total is recomputed from them.  Yields the new
`order_items` table and `newTotalAmount`. -/
def updateItemsStep (db : DB) (id : Nat) (its : List ItemReq) :
    Except String (List OrderItemRow × ℚ) :=
  if its.isEmpty then
    let currentItems := db.order_items.filter (fun r => r.order_id == id)
    Except.ok (db.order_items,
      calculateOrderTotals (currentItems.map fun r => (r.quantity, r.unit_price)))
  else
    match resolveOrderItems db.menu_items id its with
    | Except.error e => Except.error e
    | Except.ok rows =>
      Except.ok ((db.order_items.filter (fun r => ! (r.order_id == id))) ++ rows,
        calculateOrderTotals (its.map fun i => (i.quantity, i.unit_price)))

/-- The discount phase of `PUT /api/orders/:id`: existing
`order_discounts` rows of the order are always deleted; a provided
`discount_id` is looked up with `is_active = TRUE` and, when found,
applied (uncapped) and recorded as a new `order_discounts` row, whose
`applied_value` column stores the DECIMAL(10, 2) rounding.  Yields the
exact JavaScript-level `discount_amount` and the new `order_discounts`
table. -/
def updateDiscountStep (db : DB) (id : Nat) (discount_id : Option Nat)
    (applied_by_user_id : Option Nat) (newTotalAmount : ℚ) :
    ℚ × List OrderDiscountRow :=
  let keptDiscounts := db.order_discounts.filter (fun r => ! (r.order_id == id))
  match discount_id with
  | none => (0, keptDiscounts)
  | some did =>
    match db.discounts.find? (fun d => d.discount_id == did && d.is_active) with
    | none => (0, keptDiscounts)
    | some d =>
      let discount_amount := applyDiscountType d newTotalAmount
      let odRow : OrderDiscountRow :=
        { order_id := id, discount_id := did,
          applied_value := round2 discount_amount,
          applied_by_user_id := applied_by_user_id }
      (discount_amount, keptDiscounts ++ [odRow])

/-- `PUT /api/orders/:id` (updateOrder): items phase, discount phase,
then the final `UPDATE orders` row write (COALESCE semantics for
`table_number` and `notes`; JavaScript computes `final_amount =
newTotalAmount - discount_amount` exactly and the three DECIMAL(10, 2)
columns round each value on write); a missing order rolls the
transaction back. -/
def updateOrder (db : DB) (id : Nat) (table_number : Option String)
    (notes : Option String) (items : Option (List ItemReq))
    (discount_id : Option Nat) (applied_by_user_id : Option Nat) :
    Except String DB :=
  match updateItemsStep db id (items.getD []) with
  | Except.error e => Except.error e
  | Except.ok (newOrderItems, newTotalAmount) =>
    let dres := updateDiscountStep db id discount_id applied_by_user_id newTotalAmount
    let discount_amount := dres.1
    let final_amount := newTotalAmount - discount_amount
    if db.orders.any (fun o => o.order_id == id) then
      Except.ok { db with
        orders := db.orders.map (fun o =>
          if o.order_id == id then
            { o with table_number := coalesce table_number o.table_number,
                     notes := coalesce notes o.notes,
                     total_amount := round2 newTotalAmount,
                     discount_amount := round2 discount_amount,
                     final_amount := round2 final_amount }
          else o),
        order_items := newOrderItems,
        order_discounts := dres.2 }
    else Except.error "Order not found"

/-! ## Payments route, translated from the paymentRoutes.js handler
(`POST /api/payments`, the variant whose completion check runs inside the
payment transaction) and the `payments` CHECK constraint of init.sql. -/

/-- The shift-sales update of `POST /api/payments`: the SQL `UPDATE`
touches every row with this `user_id` and `shift_end IS NULL`; a
lower-cased method equal to 'cash' goes to `sales_amount_cash`, anything
else to `sales_amount_card`. -/
def shiftIncrement (cashier_id : Nat) (method : String) (amount : ℚ)
    (s : ShiftRow) : ShiftRow :=
  if s.user_id == cashier_id && s.shift_end.isNone then
    if method.toLower == "cash" then
      { s with sales_amount_cash := s.sales_amount_cash + amount }
    else
      { s with sales_amount_card := s.sales_amount_card + amount }
  else s

/-- The payments row inserted by `POST /api/payments`
(`INSERT INTO payments (order_id, payment_method, amount, transaction_id,
cashier_id, notes) VALUES ...`). -/
def mkPayment (oid : Nat) (m : String) (amount : ℚ) (tx : Option String)
    (cid : Option Nat) (nts : Option String) : PaymentRow :=
  { order_id := oid, payment_method := m, amount := amount,
    transaction_id := tx, cashier_id := cid, notes := nts }

/-- Sum of `payments.amount` over the rows of one order
(`SELECT SUM(amount) FROM payments WHERE order_id = $1`). -/
def paymentsSum (db : DB) (oid : Nat) : ℚ :=
  ((db.payments.filter (fun p => p.order_id == oid)).map (fun p => p.amount)).sum

/-- `POST /api/payments` (recordPayment): insert the payment (the
`CHECK (amount > 0)` of init.sql rejects non-positive amounts, aborting
the transaction before anything is written); if a `cashier_id` is given,
increment the active shift's cash or card sales; then read the order's
`final_amount`, sum all payments for the order (the one just inserted
included) and flip the status to 'completed' when fully paid. -/
def recordPayment (db : DB) (order_id : Nat) (payment_method : String)
    (amount : ℚ) (transaction_id : Option String) (cashier_id : Option Nat)
    (notes : Option String) : Except String DB :=
  if 0 < amount then
    let newPayment : PaymentRow :=
      mkPayment order_id payment_method amount transaction_id cashier_id notes
    let newShifts : List ShiftRow :=
      match cashier_id with
      | none => db.cashier_shifts
      | some c => db.cashier_shifts.map (shiftIncrement c payment_method amount)
    let db2 : DB := { db with
      payments := db.payments ++ [newPayment],
      cashier_shifts := newShifts }
    match db2.orders.find? (fun o => o.order_id == order_id) with
    | none => Except.error "Order not found for payment."
    | some o =>
      let totalPaid := paymentsSum db2 order_id
      if o.final_amount ≤ totalPaid then
        Except.ok { db2 with
          orders := db2.orders.map (fun r =>
            if r.order_id == order_id then { r with status := "completed" } else r) }
      else
        Except.ok db2
  else Except.error "payments amount constraint violated"

/-! ## Shift routes, translated from backend/routes/shiftRoutes.js -/

/-- `POST /api/shifts/start` (startShift): reject when this user already
has a row with `shift_end IS NULL`, otherwise insert a fresh shift with
the given `opening_cash` and the schema defaults (zero running totals,
`shift_end = NULL`, not reconciled). -/
def startShift (db : DB) (user_id : Nat) (opening_cash : ℚ) (now : ℚ) :
    Except String DB :=
  if db.cashier_shifts.any (fun s => s.user_id == user_id && s.shift_end.isNone) then
    Except.error "User already has an active shift."
  else
    let newShift : ShiftRow :=
      { shift_id := db.next_shift_id, user_id := user_id, shift_start := now,
        shift_end := none, opening_cash := opening_cash, closing_cash := none,
        cash_in := 0, cash_out := 0, sales_amount_cash := 0,
        sales_amount_card := 0, notes := none, reconciled := false }
    Except.ok { db with
      cashier_shifts := db.cashier_shifts ++ [newShift],
      next_shift_id := db.next_shift_id + 1 }

/-- `PUT /api/shifts/end/:id` (endShift): the `UPDATE ... WHERE shift_id
= $3 AND shift_end IS NULL` only touches a still-open row; no matching
row yields the 404 error. -/
def endShift (db : DB) (id : Nat) (closing_cash : ℚ) (notes : Option String)
    (now : ℚ) : Except String DB :=
  if db.cashier_shifts.any (fun s => s.shift_id == id && s.shift_end.isNone) then
    Except.ok { db with
      cashier_shifts := db.cashier_shifts.map (fun s =>
        if s.shift_id == id && s.shift_end.isNone then
          { s with shift_end := some now, closing_cash := some closing_cash,
                   notes := notes }
        else s) }
  else Except.error "Active shift not found or already ended."

/-- `PUT /api/shifts/:id` (adjustShift): COALESCE partial update of the
cash fields, the reconciled flag and the notes; `shift_end` is never
touched; a missing shift yields the 404 error. -/
def adjustShift (db : DB) (id : Nat) (opening_cash closing_cash cash_in cash_out : Option ℚ)
    (reconciled : Option Bool) (notes : Option String) : Except String DB :=
  if db.cashier_shifts.any (fun s => s.shift_id == id) then
    Except.ok { db with
      cashier_shifts := db.cashier_shifts.map (fun s =>
        if s.shift_id == id then
          { s with opening_cash := (opening_cash.getD s.opening_cash),
                   closing_cash := coalesce closing_cash s.closing_cash,
                   cash_in := cash_in.getD s.cash_in,
                   cash_out := cash_out.getD s.cash_out,
                   reconciled := reconciled.getD s.reconciled,
                   notes := coalesce notes s.notes }
        else s) }
  else Except.error "Shift not found"

/-! ## Operation sequences -/

/-- One façade operation of the order/payment core (the three operations
quantified over in the totals-invariant claim). -/
inductive OrderOp where
  | create (table_number : Option String) (cashier_id : Option Nat)
      (notes : Option String) (items : List ItemReq)
  | update (id : Nat) (table_number notes : Option String)
      (items : Option (List ItemReq)) (discount_id applied_by_user_id : Option Nat)
  | pay (order_id : Nat) (payment_method : String) (amount : ℚ)
      (transaction_id : Option String) (cashier_id : Option Nat)
      (notes : Option String)
deriving DecidableEq

/-- Run one order/payment operation, committing on success and rolling
back (leaving the store unchanged) on failure. -/
def applyOrderOp (db : DB) : OrderOp → DB
  | OrderOp.create tn cid nts items => commit db (createOrder db tn cid nts items)
  | OrderOp.update id tn nts items did ab => commit db (updateOrder db id tn nts items did ab)
  | OrderOp.pay oid m amt tx cid nts => commit db (recordPayment db oid m amt tx cid nts)

/-- Run a sequence of order/payment operations, oldest first. -/
def applyOrderOps (db : DB) : List OrderOp → DB
  | [] => db
  | op :: rest => applyOrderOps (applyOrderOp db op) rest

/-- One shift-ledger operation. -/
inductive ShiftOp where
  | start (user_id : Nat) (opening_cash now : ℚ)
  | stop (id : Nat) (closing_cash : ℚ) (notes : Option String) (now : ℚ)
  | adjust (id : Nat) (opening_cash closing_cash cash_in cash_out : Option ℚ)
      (reconciled : Option Bool) (notes : Option String)
deriving DecidableEq

/-- Run one shift operation, committing on success and rolling back on
failure. -/
def applyShiftOp (db : DB) : ShiftOp → DB
  | ShiftOp.start u oc now => commit db (startShift db u oc now)
  | ShiftOp.stop id cc nts now => commit db (endShift db id cc nts now)
  | ShiftOp.adjust id oc cc ci co rec nts => commit db (adjustShift db id oc cc ci co rec nts)

/-- Run a sequence of shift operations, oldest first. -/
def applyShiftOps (db : DB) : List ShiftOp → DB
  | [] => db
  | op :: rest => applyShiftOps (applyShiftOp db op) rest

/-! ## Concrete stores used as test inputs -/

/-- A small concrete store: two menu items and four discounts (an active
5 percent one, an active fixed 20.00 one, an inactive fixed one, and an
active fixed one carrying a 100.00 minimum threshold and a validity
window), with no orders, payments or shifts yet. -/
def demoDB : DB :=
  { menu_items := [⟨1, "Tea", 1/10⟩, ⟨2, "Coffee", 5⟩],
    orders := [], order_items := [], payments := [],
    discounts :=
      [⟨1, "five-pct", "percentage", 5, true, none, none, none⟩,
       ⟨2, "fixed-twenty", "fixed_amount", 20, true, none, none, none⟩,
       ⟨3, "inactive-fixed", "fixed_amount", 3, false, none, none, none⟩,
       ⟨4, "thresholded", "fixed_amount", 5, true, some 100, some 0, some 1⟩],
    order_discounts := [], cashier_shifts := [],
    next_order_id := 1, next_shift_id := 1 }

/-- `demoDB` with one order (id 1, final_amount 100.00) whose status has
already been set to 'completed', and no payments yet. -/
def preCompletedDB : DB :=
  { demoDB with
    orders := [⟨1, none, "completed", 100, 0, 100, none, none⟩],
    next_order_id := 2 }

/-- `demoDB` with one pending order of final_amount 12.15 (scenario A/B
of the spec: items 2 x 5.00 and 1 x 3.50, 10 percent discount) and one
active shift (id 1) of user 7 plus one closed shift (id 2) of user 8. -/
def shiftedDB : DB :=
  { demoDB with
    orders := [⟨1, none, "pending", 27/2, 27/20, 243/20, some 7, none⟩],
    order_items :=
      [⟨1, 2, "Coffee", 2, 5, 10, none⟩, ⟨1, 2, "Coffee", 1, 7/2, 7/2, none⟩],
    next_order_id := 2,
    cashier_shifts :=
      [⟨1, 7, 0, none, 50, none, 0, 0, 0, 0, none, false⟩,
       ⟨2, 8, 0, some 1, 40, some 40, 0, 0, 0, 0, none, false⟩],
    next_shift_id := 3 }

/-! ## Derived characterizations and read accessors -/

/-- The shifts table produced by step 2 of recordPayment: untouched
without a cashier_id, otherwise every active shift row of that cashier
is incremented. -/
def payShifts (db : DB) (m : String) (amount : ℚ) : Option Nat → List ShiftRow
  | none => db.cashier_shifts
  | some c => db.cashier_shifts.map (shiftIncrement c m amount)

/-- The store produced by a successful recordPayment call; see
`recordPayment_ok_char`. -/
def payResult (db : DB) (oid : Nat) (m : String) (amount : ℚ)
    (tx : Option String) (cid : Option Nat) (nts : Option String)
    (o : OrderRow) : DB :=
  let db2 : DB := { db with
    payments := db.payments ++ [mkPayment oid m amount tx cid nts],
    cashier_shifts := payShifts db m amount cid }
  if o.final_amount ≤ paymentsSum db2 oid then
    { db2 with orders := db2.orders.map (fun r =>
        if r.order_id == oid then { r with status := "completed" } else r) }
  else db2

/-- The status of one order, read as by `GET /api/orders/:id`. -/
def orderStatus (db : DB) (oid : Nat) : Option String :=
  (db.orders.find? (fun o => o.order_id == oid)).map (fun o => o.status)

/-- The final_amount of one order. -/
def orderFinal (db : DB) (oid : Nat) : Option ℚ :=
  (db.orders.find? (fun o => o.order_id == oid)).map (fun o => o.final_amount)

/-- The store after paying 1.00 against the already-completed order of
`preCompletedDB`. -/
def preCompletedPost : DB :=
  commit preCompletedDB (recordPayment preCompletedDB 1 "cash" 1 none none none)

/-- The discount_amount of one order. -/
def orderDiscountAmount (db : DB) (oid : Nat) : Option ℚ :=
  (db.orders.find? (fun o => o.order_id == oid)).map (fun o => o.discount_amount)

/-- The total_amount of one order. -/
def orderTotalAmount (db : DB) (oid : Nat) : Option ℚ :=
  (db.orders.find? (fun o => o.order_id == oid)).map (fun o => o.total_amount)

/-- The stored-items subtotal `PUT /api/orders/:id` recomputes when no
items are supplied: `calculateOrderTotals` over the order's stored rows. -/
def storedSubtotal (db : DB) (id : Nat) : ℚ :=
  calculateOrderTotals ((db.order_items.filter (fun r => r.order_id == id)).map
    fun r => (r.quantity, r.unit_price))

/-- `demoDB` after creating an order of subtotal 15.00 (3 x 5.00). -/
def fifteenDB : DB :=
  applyOrderOps demoDB [OrderOp.create none none none [⟨2, 3, 5, none⟩]]

/-- `fifteenDB` after applying the active fixed 20.00 discount. -/
def fifteenPost : DB :=
  commit fifteenDB (updateOrder fifteenDB 1 none none none (some 2) none)

/-- `demoDB` after creating an order of subtotal 10.00 (2 x 5.00). -/
def tenDB : DB :=
  applyOrderOps demoDB [OrderOp.create none none none [⟨2, 2, 5, none⟩]]

/-- `tenDB` after applying the active discount whose 100.00 minimum
threshold the 10.00 subtotal violates. -/
def tenPost : DB :=
  commit tenDB (updateOrder tenDB 1 none none none (some 4) none)

/-- `demoDB` after a createOrder call with an empty items array. -/
def emptyItemsPost : DB :=
  commit demoDB (createOrder demoDB none none none [])

/-- Number of active (shift_end null) CashierShift rows of one user. -/
def activeShiftCount (db : DB) (u : Nat) : Nat :=
  (db.cashier_shifts.filter (fun s => s.user_id == u && s.shift_end.isNone)).length

/-- Single-active-shift invariant: at most one open shift per user. -/
def ShiftInv (db : DB) : Prop := ∀ u, activeShiftCount db u ≤ 1

/-- The order-totals invariant of the stored data: every order's three
amounts are exactly the DECIMAL(10, 2) roundings of values the writing
route computed — `total_amount = round2 T`, `discount_amount = round2 D`
and `final_amount = round2 (T - D)` for the exact item total `T` and
discount `D` of the order's last write (`D = 0` at creation or when no
discount applies). -/
def RoundInv (db : DB) : Prop :=
  ∀ o ∈ db.orders, ∃ T D : ℚ,
    o.total_amount = round2 T ∧ o.discount_amount = round2 D ∧
    o.final_amount = round2 (T - D)

/-- The store produced by a successful updateOrder call, parametrised by
the item table and total its items phase produced; see
`updateOrder_none_char` and `updateOrder_items_char`. -/
def updResult (db : DB) (id : Nat) (tn nts : Option String) (did ab : Option Nat)
    (newItems : List OrderItemRow) (T : ℚ) : DB :=
  { db with
    orders := db.orders.map (fun o =>
      if o.order_id == id then
        { o with table_number := coalesce tn o.table_number,
                 notes := coalesce nts o.notes,
                 total_amount := round2 T,
                 discount_amount := round2 (updateDiscountStep db id did ab T).1,
                 final_amount := round2 (T - (updateDiscountStep db id did ab T).1) }
      else o),
    order_items := newItems,
    order_discounts := (updateDiscountStep db id did ab T).2 }

/-- `demoDB` after creating a 0.10 order and applying the 5 percent
discount: the stored amounts are exact, carrying the unroundable
discount 0.005. -/
def ratPost : DB :=
  applyOrderOps demoDB
    [OrderOp.create none none none [⟨1, 1, 1/10, none⟩],
     OrderOp.update 1 none none none (some 1) none]

/-! ## Basic lemmas about the embedded operations -/

/-- `find?` commutes with a map that leaves the search predicate alone. -/
theorem find?_map_eq {α : Type} (f : α → α) (p : α → Bool)
    (hp : ∀ a, p (f a) = p a) (l : List α) :
    (l.map f).find? p = (l.find? p).map f := by
  induction l with
  | nil => rfl
  | cons a l ih =>
    by_cases ha : p a
    · simp [List.find?_cons, hp, ha]
    · simp [List.find?_cons, hp, ha, ih]

/-- Inserting a payment row for order `oid` grows that order's payment
sum by exactly the row's amount, whatever else changed in the shifts. -/
theorem paymentsSum_insert (db : DB) (p : PaymentRow) (l : List ShiftRow) (oid : Nat)
    (hp : p.order_id = oid) :
    paymentsSum { db with payments := db.payments ++ [p], cashier_shifts := l } oid
      = paymentsSum db oid + p.amount := by
  simp [paymentsSum, List.filter_append, hp]

/-! ## Arithmetic of the DECIMAL(10,2) storage rounding -/

theorem round2_floor_bound (y : ℚ) :
    |((Int.floor (y * 100 + 1 / 2) : ℚ)) / 100 - y| ≤ 1 / 200 := by
  rw [abs_le]
  have h1 : (y * 100 + 1 / 2) < (Int.floor (y * 100 + 1 / 2) : ℚ) + 1 :=
    Int.lt_floor_add_one _
  have h2 : ((Int.floor (y * 100 + 1 / 2) : ℚ)) ≤ y * 100 + 1 / 2 :=
    Int.floor_le _
  constructor <;> nlinarith

theorem round2_sub_le (x : ℚ) : |round2 x - x| ≤ 1 / 200 := by
  unfold round2
  by_cases hx : x < 0
  · rw [if_pos hx]
    have hkey := round2_floor_bound (-x)
    rw [abs_le] at hkey ⊢
    constructor <;> nlinarith [hkey.1, hkey.2]
  · rw [if_neg hx]
    exact round2_floor_bound x

theorem round2_eq_int_div (x : ℚ) : ∃ k : ℤ, round2 x = (k : ℚ) / 100 := by
  unfold round2
  by_cases hx : x < 0
  · rw [if_pos hx]
    refine ⟨-(Int.floor (-x * 100 + 1 / 2)), ?_⟩
    push_cast
    ring
  · rw [if_neg hx]
    exact ⟨Int.floor (x * 100 + 1 / 2), rfl⟩

theorem floor_int_add_half (j : ℤ) : Int.floor ((j : ℚ) + 1 / 2) = j := by
  have h05 : Int.floor ((1 : ℚ) / 2) = 0 := by
    apply Int.floor_eq_iff.mpr
    constructor <;> norm_num
  rw [add_comm, Int.floor_add_int, h05, zero_add]

theorem round2_int_div (k : ℤ) : round2 ((k : ℚ) / 100) = (k : ℚ) / 100 := by
  unfold round2
  by_cases hx : ((k : ℚ) / 100) < 0
  · rw [if_pos hx]
    have harg : -((k : ℚ) / 100) * 100 + 1 / 2 = ((-k : ℤ) : ℚ) + 1 / 2 := by
      push_cast
      ring
    rw [harg, floor_int_add_half]
    push_cast
    ring
  · rw [if_neg hx]
    have harg : ((k : ℚ) / 100) * 100 + 1 / 2 = (k : ℚ) + 1 / 2 := by
      ring
    rw [harg, floor_int_add_half]

theorem round2_zero : round2 0 = 0 := by
  have := round2_int_div 0
  simpa using this

theorem round2_fixed_sub (x y : ℚ) (hx : round2 x = x) (hy : round2 y = y) :
    round2 (x - y) = x - y := by
  obtain ⟨a, ha⟩ := round2_eq_int_div x
  obtain ⟨b, hb⟩ := round2_eq_int_div y
  rw [hx] at ha
  rw [hy] at hb
  rw [ha, hb, show (a : ℚ) / 100 - (b : ℚ) / 100 = ((a - b : ℤ) : ℚ) / 100 by push_cast; ring,
    round2_int_div]

/-- Rounding the total, the discount and their difference independently
(as the three DECIMAL(10,2) orders columns do) keeps the stored books
within one cent of balancing. -/
theorem cent_bound (T D : ℚ) :
    |round2 (T - D) - (round2 T - round2 D)| ≤ 1 / 100 := by
  obtain ⟨a, ha⟩ := round2_eq_int_div (T - D)
  obtain ⟨b, hb⟩ := round2_eq_int_div T
  obtain ⟨c, hc⟩ := round2_eq_int_div D
  have h1 := round2_sub_le (T - D)
  have h2 := round2_sub_le T
  have h3 := round2_sub_le D
  have hco : |round2 (T - D) - (round2 T - round2 D)| ≤ 3 / 200 := by
    rw [abs_le] at h1 h2 h3 ⊢
    constructor <;> nlinarith [h1.1, h1.2, h2.1, h2.2, h3.1, h3.2]
  rw [ha, hb, hc] at hco ⊢
  have hrw : (a : ℚ) / 100 - ((b : ℚ) / 100 - (c : ℚ) / 100)
      = ((a - b + c : ℤ) : ℚ) / 100 := by
    push_cast
    ring
  rw [hrw] at hco ⊢
  have hq : |((a - b + c : ℤ) : ℚ)| ≤ 3 / 2 := by
    rw [abs_le] at hco ⊢
    constructor <;> linarith [hco.1, hco.2]
  have hint : |a - b + c| ≤ 1 := by
    by_contra hK
    push_neg at hK
    have h2K : (2 : ℤ) ≤ |a - b + c| := hK
    have h2q : (2 : ℚ) ≤ |((a - b + c : ℤ) : ℚ)| := by
      rw [← Int.cast_abs]
      exact_mod_cast h2K
    linarith [hq, h2q]
  have hc1 : |((a - b + c : ℤ) : ℚ)| ≤ 1 := by
    rw [← Int.cast_abs]
    exact_mod_cast hint
  rw [abs_le] at hc1 ⊢
  constructor <;> linarith [hc1.1, hc1.2]

/-! ## Claim C10 -/

/-- C10: an updateOrder call whose `items` parameter is the empty array
behaves exactly like a call with `items` omitted — the same result store
(existing OrderItem rows are not deleted or replaced, the total is
recomputed from the stored rows), and on success the `order_items` table
is untouched. -/
theorem updateOrder_empty_items_eq_omitted (db : DB) (id : Nat)
    (tn nts : Option String) (did ab : Option Nat) :
    updateOrder db id tn nts (some []) did ab = updateOrder db id tn nts none did ab ∧
    ∀ db', updateOrder db id tn nts (some []) did ab = Except.ok db' →
      db'.order_items = db.order_items := by
  refine ⟨rfl, ?_⟩
  intro db' h
  unfold updateOrder updateItemsStep at h
  simp only [Option.getD_some, List.isEmpty_nil, if_true] at h
  split at h
  · cases h
    rfl
  · cases h

/-- Witness for C10 at a concrete store. -/
theorem updateOrder_empty_items_eq_omitted_witness :
    updateOrder shiftedDB 1 none none (some []) none none
      = updateOrder shiftedDB 1 none none none none none ∧
    (commit shiftedDB (updateOrder shiftedDB 1 none none (some []) none none)).order_items
      = shiftedDB.order_items :=
  ⟨(updateOrder_empty_items_eq_omitted shiftedDB 1 none none none none).1,
   (updateOrder_empty_items_eq_omitted shiftedDB 1 none none none none).2 _ (by rfl)⟩

/-! ## Claim C6 -/

/-- C6: recordPayment with a non-positive amount fails (the payments
CHECK constraint aborts the transaction before any write), leaving the
committed store — payments, shift totals, order statuses — exactly as it
was; and every failing recordPayment call, whatever the failure, commits
nothing (full rollback). -/
theorem recordPayment_rejects_nonpositive (db : DB) (oid : Nat) (m : String)
    (amount : ℚ) (tx : Option String) (cid : Option Nat) (nts : Option String)
    (h : amount ≤ 0) :
    (∃ e, recordPayment db oid m amount tx cid nts = Except.error e) ∧
    commit db (recordPayment db oid m amount tx cid nts) = db ∧
    ∀ (db0 : DB) (oid0 : Nat) (m0 : String) (a0 : ℚ) (tx0 : Option String)
      (cid0 : Option Nat) (nts0 : Option String) (e : String),
      recordPayment db0 oid0 m0 a0 tx0 cid0 nts0 = Except.error e →
      commit db0 (recordPayment db0 oid0 m0 a0 tx0 cid0 nts0) = db0 := by
  have hn : ¬ (0 < amount) := not_lt.mpr h
  refine ⟨⟨"payments amount constraint violated", ?_⟩, ?_, ?_⟩
  · unfold recordPayment
    rw [if_neg hn]
  · unfold recordPayment
    rw [if_neg hn]
    rfl
  · intro db0 oid0 m0 a0 tx0 cid0 nts0 e he
    rw [he]
    rfl

/-- Witness for C6: a -1.00 payment against the concrete store. -/
theorem recordPayment_rejects_nonpositive_witness :
    commit shiftedDB (recordPayment shiftedDB 1 "cash" (-1) none (some 7) none)
      = shiftedDB :=
  (recordPayment_rejects_nonpositive shiftedDB 1 "cash" (-1) none (some 7) none
    (by norm_num)).2.1



theorem recordPayment_ok_char (db : DB) (oid : Nat) (m : String) (amount : ℚ)
    (tx : Option String) (cid : Option Nat) (nts : Option String) (o : OrderRow)
    (hamt : 0 < amount)
    (ho : db.orders.find? (fun r => r.order_id == oid) = some o) :
    recordPayment db oid m amount tx cid nts
      = Except.ok (payResult db oid m amount tx cid nts o) := by
  unfold recordPayment payResult
  rw [if_pos hamt]
  dsimp only
  rw [ho]
  cases cid <;> simp [payShifts] <;> split <;> rfl



theorem payResult_payments (db : DB) (oid : Nat) (m : String) (amount : ℚ)
    (tx : Option String) (cid : Option Nat) (nts : Option String) (o : OrderRow) :
    (payResult db oid m amount tx cid nts o).payments
      = db.payments ++ [mkPayment oid m amount tx cid nts] := by
  unfold payResult
  dsimp only
  split <;> rfl

theorem payResult_shifts (db : DB) (oid : Nat) (m : String) (amount : ℚ)
    (tx : Option String) (cid : Option Nat) (nts : Option String) (o : OrderRow) :
    (payResult db oid m amount tx cid nts o).cashier_shifts = payShifts db m amount cid := by
  unfold payResult
  dsimp only
  split <;> rfl

theorem paymentsSum_payResult (db : DB) (oid : Nat) (m : String) (amount : ℚ)
    (tx : Option String) (cid : Option Nat) (nts : Option String) (o : OrderRow) :
    paymentsSum (payResult db oid m amount tx cid nts o) oid
      = paymentsSum db oid + amount := by
  unfold paymentsSum
  rw [payResult_payments]
  simp [List.filter_append, paymentsSum, mkPayment]

theorem orderStatus_payResult (db : DB) (oid : Nat) (m : String) (amount : ℚ)
    (tx : Option String) (cid : Option Nat) (nts : Option String) (o : OrderRow)
    (ho : db.orders.find? (fun r => r.order_id == oid) = some o) :
    orderStatus (payResult db oid m amount tx cid nts o) oid =
      if o.final_amount ≤ paymentsSum db oid + amount then some "completed"
      else some o.status := by
  have hps : paymentsSum ({ db with
      payments := db.payments ++ [mkPayment oid m amount tx cid nts],
      cashier_shifts := payShifts db m amount cid } : DB) oid
      = paymentsSum db oid + amount :=
    paymentsSum_insert db _ _ oid rfl
  unfold payResult orderStatus
  dsimp only
  rw [hps]
  by_cases h : o.final_amount ≤ paymentsSum db oid + amount
  · rw [if_pos h, if_pos h]
    have hpres : ∀ r : OrderRow,
        (((fun r => if r.order_id == oid then { r with status := "completed" } else r) r).order_id == oid)
          = (r.order_id == oid) := by
      intro r
      by_cases hr : r.order_id == oid
      · simp [hr]
      · simp [hr]
    rw [find?_map_eq _ _ hpres, ho]
    have hpo : (o.order_id == oid) = true := by
      have h2 := List.find?_some ho
      simpa using h2
    have hoid : o.order_id = oid := by simpa using hpo
    simp [hoid]
  · rw [if_neg h, if_neg h]
    show (db.orders.find? (fun r => r.order_id == oid)).map (fun r => r.status) = some o.status
    rw [ho]
    rfl

/-- C1 (amended): when recordPayment commits, the order's status is
'completed' iff the payments for the order (the one just inserted
included) sum to at least final_amount OR the status was already
'completed' before the call; payment logic never downgrades a status. -/
theorem recordPayment_completed_iff (db : DB) (oid : Nat) (m : String)
    (amount : ℚ) (tx : Option String) (cid : Option Nat) (nts : Option String)
    (o : OrderRow) (hamt : 0 < amount)
    (ho : db.orders.find? (fun r => r.order_id == oid) = some o) :
    ∃ db', recordPayment db oid m amount tx cid nts = Except.ok db' ∧
      (orderStatus db' oid = some "completed" ↔
        (o.final_amount ≤ paymentsSum db' oid ∨ o.status = "completed")) := by
  refine ⟨payResult db oid m amount tx cid nts o,
    recordPayment_ok_char db oid m amount tx cid nts o hamt ho, ?_⟩
  rw [orderStatus_payResult db oid m amount tx cid nts o ho, paymentsSum_payResult]
  by_cases h : o.final_amount ≤ paymentsSum db oid + amount
  · simp [h]
  · simp [h]


/-- C1 counterexample: the payment commits, the status stays 'completed',
yet the payments sum (1.00) is below final_amount (100.00), so the
claimed iff is false. -/
theorem recordPayment_completed_iff_counterexample :
    (recordPayment preCompletedDB 1 "cash" 1 none none none).toOption
      = some preCompletedPost ∧
    orderFinal preCompletedPost 1 = some 100 ∧
    paymentsSum preCompletedPost 1 = 1 ∧
    ¬ (orderStatus preCompletedPost 1 = some "completed" ↔
        (100 : ℚ) ≤ paymentsSum preCompletedPost 1) := by
  refine ⟨by with_unfolding_all decide, by with_unfolding_all decide,
    by with_unfolding_all decide, ?_⟩
  with_unfolding_all decide

/-- Witness for C1 (amended) at a concrete store. -/
theorem recordPayment_completed_iff_witness :
    ∃ db', recordPayment shiftedDB 1 "cash" (243/20) none (some 7) none = Except.ok db' ∧
      (orderStatus db' 1 = some "completed" ↔
        ((243/20 : ℚ) ≤ paymentsSum db' 1 ∨ "pending" = "completed")) :=
  recordPayment_completed_iff shiftedDB 1 "cash" (243/20) none (some 7) none
    ⟨1, none, "pending", 27/2, 27/20, 243/20, some 7, none⟩ (by norm_num)
    (by with_unfolding_all decide)

/-! ## Claims C7 and C9 -/

/-- C7: for a committing recordPayment call carrying a cashier_id: every
active shift row (shift_end null) of that cashier gets
`sales_amount_cash` (method 'cash', case-insensitively) or
`sales_amount_card` (any other method, e.g. 'card') incremented by
exactly the payment amount; when that cashier has no active shift the
shifts table is untouched — no error — and the payment row is recorded
regardless. -/
theorem recordPayment_shift_increment (db : DB) (oid : Nat) (m : String)
    (amount : ℚ) (tx : Option String) (c : Nat) (nts : Option String)
    (o : OrderRow) (hamt : 0 < amount)
    (ho : db.orders.find? (fun r => r.order_id == oid) = some o) :
    ∃ db', recordPayment db oid m amount tx (some c) nts = Except.ok db' ∧
      (∀ s ∈ db.cashier_shifts, s.user_id = c → s.shift_end = none →
        (m.toLower = "cash" →
          { s with sales_amount_cash := s.sales_amount_cash + amount } ∈ db'.cashier_shifts) ∧
        (m.toLower ≠ "cash" →
          { s with sales_amount_card := s.sales_amount_card + amount } ∈ db'.cashier_shifts)) ∧
      ((∀ s ∈ db.cashier_shifts, s.user_id = c → s.shift_end ≠ none) →
        db'.cashier_shifts = db.cashier_shifts) ∧
      mkPayment oid m amount tx (some c) nts ∈ db'.payments := by
  refine ⟨payResult db oid m amount tx (some c) nts o,
    recordPayment_ok_char db oid m amount tx (some c) nts o hamt ho, ?_, ?_, ?_⟩
  · intro s hs hu he
    rw [payResult_shifts]
    constructor
    · intro hcash
      have hrow : shiftIncrement c m amount s
          = { s with sales_amount_cash := s.sales_amount_cash + amount } := by
        unfold shiftIncrement
        rw [if_pos (by simp [hu, he]), if_pos (by simp [hcash])]
      rw [← hrow]
      simpa [payShifts] using List.mem_map_of_mem (shiftIncrement c m amount) hs
    · intro hcard
      have hrow : shiftIncrement c m amount s
          = { s with sales_amount_card := s.sales_amount_card + amount } := by
        unfold shiftIncrement
        rw [if_pos (by simp [hu, he]), if_neg (by simp [hcard])]
      rw [← hrow]
      simpa [payShifts] using List.mem_map_of_mem (shiftIncrement c m amount) hs
  · intro hno
    rw [payResult_shifts]
    have hid : ∀ s ∈ db.cashier_shifts, shiftIncrement c m amount s = s := by
      intro s hs
      unfold shiftIncrement
      rw [if_neg]
      intro hcond
      rcases (by simpa using hcond : s.user_id = c ∧ s.shift_end.isNone) with ⟨h1, h2⟩
      exact hno s hs h1 (Option.isNone_iff_eq_none.mp h2)
    simpa [payShifts] using List.map_congr_left hid
  · rw [payResult_payments]
    simp

/-- C9: with an active shift, any payment_method whose lowercase form is
not 'cash' (for example 'voucher' or 'transfer', not only 'card')
increments sales_amount_card by the amount; only a method lowercasing to
'cash' increments sales_amount_cash. -/
theorem recordPayment_noncash_goes_to_card (db : DB) (oid : Nat) (m : String)
    (amount : ℚ) (tx : Option String) (c : Nat) (nts : Option String)
    (o : OrderRow) (s : ShiftRow) (hamt : 0 < amount)
    (ho : db.orders.find? (fun r => r.order_id == oid) = some o)
    (hs : s ∈ db.cashier_shifts) (hu : s.user_id = c) (he : s.shift_end = none) :
    ∃ db', recordPayment db oid m amount tx (some c) nts = Except.ok db' ∧
      (m.toLower ≠ "cash" →
        { s with sales_amount_card := s.sales_amount_card + amount } ∈ db'.cashier_shifts) ∧
      (m.toLower = "cash" →
        { s with sales_amount_cash := s.sales_amount_cash + amount } ∈ db'.cashier_shifts) := by
  refine ⟨payResult db oid m amount tx (some c) nts o,
    recordPayment_ok_char db oid m amount tx (some c) nts o hamt ho, ?_, ?_⟩
  · intro hcard
    rw [payResult_shifts]
    have hrow : shiftIncrement c m amount s
        = { s with sales_amount_card := s.sales_amount_card + amount } := by
      unfold shiftIncrement
      rw [if_pos (by simp [hu, he]), if_neg (by simp [hcard])]
    rw [← hrow]
    simpa [payShifts] using List.mem_map_of_mem (shiftIncrement c m amount) hs
  · intro hcash
    rw [payResult_shifts]
    have hrow : shiftIncrement c m amount s
        = { s with sales_amount_cash := s.sales_amount_cash + amount } := by
      unfold shiftIncrement
      rw [if_pos (by simp [hu, he]), if_pos (by simp [hcash])]
    rw [← hrow]
    simpa [payShifts] using List.mem_map_of_mem (shiftIncrement c m amount) hs

/-- Witness for C7: a 12.15 cash payment by cashier 7 lands in the
active shift's sales_amount_cash (spec scenario C). -/
theorem recordPayment_shift_increment_witness :
    ({ shift_id := 1, user_id := 7, shift_start := 0, shift_end := none,
       opening_cash := 50, closing_cash := none, cash_in := 0, cash_out := 0,
       sales_amount_cash := 0 + 243/20, sales_amount_card := 0, notes := none,
       reconciled := false } : ShiftRow) ∈
      (commit shiftedDB
        (recordPayment shiftedDB 1 "cash" (243/20) none (some 7) none)).cashier_shifts := by
  obtain ⟨db', hok, hact, hskip, hpay⟩ :=
    recordPayment_shift_increment shiftedDB 1 "cash" (243/20) none 7 none
      ⟨1, none, "pending", 27/2, 27/20, 243/20, some 7, none⟩ (by norm_num)
      (by with_unfolding_all decide)
  rw [hok]
  exact (hact ⟨1, 7, 0, none, 50, none, 0, 0, 0, 0, none, false⟩
    (by with_unfolding_all decide) rfl rfl).1 (by with_unfolding_all decide)

/-- Witness for C9: a 12.15 'voucher' payment by cashier 7 lands in the
active shift's sales_amount_card. -/
theorem recordPayment_noncash_goes_to_card_witness :
    ({ shift_id := 1, user_id := 7, shift_start := 0, shift_end := none,
       opening_cash := 50, closing_cash := none, cash_in := 0, cash_out := 0,
       sales_amount_cash := 0, sales_amount_card := 0 + 243/20, notes := none,
       reconciled := false } : ShiftRow) ∈
      (commit shiftedDB
        (recordPayment shiftedDB 1 "voucher" (243/20) none (some 7) none)).cashier_shifts := by
  obtain ⟨db', hok, hcard, hcash⟩ :=
    recordPayment_noncash_goes_to_card shiftedDB 1 "voucher" (243/20) none 7 none
      ⟨1, none, "pending", 27/2, 27/20, 243/20, some 7, none⟩
      ⟨1, 7, 0, none, 50, none, 0, 0, 0, 0, none, false⟩ (by norm_num)
      (by with_unfolding_all decide) (by with_unfolding_all decide) rfl rfl
  rw [hok]
  exact hcard (by with_unfolding_all decide)

/-! ## Characterizing updateOrder with items omitted -/

theorem updateOrder_none_char (db : DB) (id : Nat) (tn nts : Option String)
    (did ab : Option Nat)
    (hex : db.orders.any (fun o => o.order_id == id) = true) :
    updateOrder db id tn nts none did ab = Except.ok { db with
      orders := db.orders.map (fun o =>
        if o.order_id == id then
          { o with table_number := coalesce tn o.table_number,
                   notes := coalesce nts o.notes,
                   total_amount := round2 (storedSubtotal db id),
                   discount_amount :=
                     round2 (updateDiscountStep db id did ab (storedSubtotal db id)).1,
                   final_amount := round2 (storedSubtotal db id
                     - (updateDiscountStep db id did ab (storedSubtotal db id)).1) }
        else o),
      order_items := db.order_items,
      order_discounts := (updateDiscountStep db id did ab (storedSubtotal db id)).2 } := by
  unfold updateOrder updateItemsStep
  simp only [Option.getD_none, List.isEmpty_nil, if_true]
  rw [hex]
  simp [storedSubtotal]

theorem updateDiscountStep_not_found (db : DB) (id : Nat) (did : Nat)
    (ab : Option Nat) (T : ℚ)
    (h : db.discounts.find? (fun d => d.discount_id == did && d.is_active) = none) :
    updateDiscountStep db id (some did) ab T
      = (0, db.order_discounts.filter (fun r => ! (r.order_id == id))) := by
  unfold updateDiscountStep
  dsimp only
  rw [h]

theorem updateDiscountStep_found (db : DB) (id : Nat) (did : Nat)
    (ab : Option Nat) (T : ℚ) (d : DiscountRow)
    (h : db.discounts.find? (fun x => x.discount_id == did && x.is_active) = some d) :
    updateDiscountStep db id (some did) ab T
      = (applyDiscountType d T,
         db.order_discounts.filter (fun r => ! (r.order_id == id)) ++
           [{ order_id := id, discount_id := did,
              applied_value := round2 (applyDiscountType d T),
              applied_by_user_id := ab }]) := by
  unfold updateDiscountStep
  dsimp only
  rw [h]

/-! ## Claim C3 -/

/-- C3 (amended): an active fixed_amount discount is applied uncapped —
discount_amount equals the discount's value even when it exceeds the
subtotal, and final_amount = subtotal - value, which may be negative; in
particular a 20.00 fixed discount on a 15.00 subtotal yields
discount_amount 20.00 and final_amount -5.00.  (The two rounding
hypotheses record what the schema guarantees of every stored input:
`discounts.value` is DECIMAL(5,2) and the stored items subtotal is a sum
of integer quantities times DECIMAL(10,2) prices, so both are their own
DECIMAL(10,2) roundings.) -/
theorem updateOrder_fixed_uncapped (db : DB) (id : Nat) (tn nts : Option String)
    (did : Nat) (ab : Option Nat) (d : DiscountRow)
    (hex : db.orders.any (fun o => o.order_id == id) = true)
    (hd : db.discounts.find? (fun x => x.discount_id == did && x.is_active) = some d)
    (hty : d.discount_type = "fixed_amount")
    (hv : round2 d.value = d.value)
    (hT : round2 (storedSubtotal db id) = storedSubtotal db id) :
    ∃ db', updateOrder db id tn nts none (some did) ab = Except.ok db' ∧
      ∀ o ∈ db'.orders, o.order_id = id →
        o.discount_amount = d.value ∧
        o.final_amount = storedSubtotal db id - d.value := by
  rw [updateOrder_none_char db id tn nts (some did) ab hex]
  refine ⟨_, rfl, ?_⟩
  intro o hmem hoid
  rcases List.mem_map.mp hmem with ⟨o0, ho0, rfl⟩
  by_cases hc : (o0.order_id == id) = true
  · rw [updateDiscountStep_found db id did ab (storedSubtotal db id) d hd]
    simp only [hc, if_true]
    have happ : applyDiscountType d (storedSubtotal db id) = d.value := by
      unfold applyDiscountType
      simp [hty]
    constructor
    · show round2 (applyDiscountType d (storedSubtotal db id)) = d.value
      rw [happ, hv]
    · show round2 (storedSubtotal db id - applyDiscountType d (storedSubtotal db id))
        = storedSubtotal db id - d.value
      rw [happ, round2_fixed_sub _ _ hT hv]
  · rw [if_neg hc] at hoid
    exact absurd (by simpa using hoid) (by simpa using hc)

/-- C3 counterexample: against the code, fixed 20.00 on subtotal 15.00
gives discount_amount 20.00 (not min(20, 15) = 15.00) and final_amount
-5.00 (not 0.00). -/
theorem updateOrder_fixed_uncapped_counterexample :
    (updateOrder fifteenDB 1 none none none (some 2) none).toOption = some fifteenPost ∧
    orderTotalAmount fifteenPost 1 = some 15 ∧
    orderDiscountAmount fifteenPost 1 = some 20 ∧
    orderFinal fifteenPost 1 = some (-5) ∧
    orderDiscountAmount fifteenPost 1 ≠ some (min 20 15) ∧
    orderFinal fifteenPost 1 ≠ some 0 := by
  with_unfolding_all decide

/-- Witness for C3 (amended) at the concrete 15.00-subtotal store. -/
theorem updateOrder_fixed_uncapped_witness :
    orderDiscountAmount fifteenPost 1 = some 20 ∧
    orderFinal fifteenPost 1 = some (15 - 20) := by
  obtain ⟨db', hok, hall⟩ :=
    updateOrder_fixed_uncapped fifteenDB 1 none none 2 none
      ⟨2, "fixed-twenty", "fixed_amount", 20, true, none, none, none⟩
      (by with_unfolding_all decide) (by with_unfolding_all decide) rfl
      (by with_unfolding_all decide) (by with_unfolding_all decide)
  have hpost : fifteenPost = db' := by
    unfold fifteenPost
    rw [hok]
    rfl
  rw [hpost]
  have hsub : storedSubtotal fifteenDB 1 = 15 := by with_unfolding_all decide
  have horder : orderDiscountAmount db' 1 = some 20 ∧ orderFinal db' 1 = some (15 - 20) := by
    have hfind : ∃ o, db'.orders.find? (fun r => r.order_id == 1) = some o ∧ o ∈ db'.orders := by
      rw [← hpost]
      exact ⟨⟨1, none, "pending", 15, 20, -5, none, none⟩,
        by with_unfolding_all decide, by with_unfolding_all decide⟩
    rcases hfind with ⟨o, hfo, hom⟩
    have hoid : o.order_id = 1 := by simpa using List.find?_some hfo
    rcases hall o hom hoid with ⟨h1, h2⟩
    rw [hsub] at h2
    constructor
    · rw [orderDiscountAmount, hfo]
      simp [h1]
    · rw [orderFinal, hfo]
      simp [h2]
  exact horder

/-! ## Claim C4 -/

/-- C4 (amended): only a missing-or-inactive discount is silently
skipped — the update succeeds with discount_amount 0 and no OrderDiscount
row and no error; the validity window and minimum-amount threshold are
never consulted, so an active discount failing only those checks is
applied and recorded anyway, the discount arithmetic being blind to
those fields. -/
theorem updateOrder_discount_applicability (db : DB) (id : Nat)
    (tn nts : Option String) (did : Nat) (ab : Option Nat)
    (hex : db.orders.any (fun o => o.order_id == id) = true) :
    (db.discounts.find? (fun x => x.discount_id == did && x.is_active) = none →
      ∃ db', updateOrder db id tn nts none (some did) ab = Except.ok db' ∧
        (∀ o ∈ db'.orders, o.order_id = id → o.discount_amount = 0) ∧
        db'.order_discounts.filter (fun r => r.order_id == id) = []) ∧
    (∀ d, db.discounts.find? (fun x => x.discount_id == did && x.is_active) = some d →
      ∃ db', updateOrder db id tn nts none (some did) ab = Except.ok db' ∧
        (∀ o ∈ db'.orders, o.order_id = id →
          o.discount_amount = round2 (applyDiscountType d (storedSubtotal db id))) ∧
        ({ order_id := id, discount_id := did,
           applied_value := round2 (applyDiscountType d (storedSubtotal db id)),
           applied_by_user_id := ab } : OrderDiscountRow) ∈ db'.order_discounts) ∧
    (∀ (d : DiscountRow) (mth vf vu : Option ℚ) (T : ℚ),
      applyDiscountType
          { d with min_amount_threshold := mth, valid_from := vf, valid_until := vu } T
        = applyDiscountType d T) := by
  refine ⟨?_, ?_, ?_⟩
  · intro hnone
    rw [updateOrder_none_char db id tn nts (some did) ab hex,
        updateDiscountStep_not_found db id did ab _ hnone]
    refine ⟨_, rfl, ?_, ?_⟩
    · intro o hmem hoid
      rcases List.mem_map.mp hmem with ⟨o0, ho0, rfl⟩
      by_cases hc : (o0.order_id == id) = true
      · simp [hc, round2_zero]
      · rw [if_neg hc] at hoid
        exact absurd (by simpa using hoid) (by simpa using hc)
    · rw [List.filter_filter]
      apply List.filter_eq_nil_iff.mpr
      intro a ha
      by_cases h1 : (a.order_id == id) = true <;> simp [h1]
  · intro d hd
    rw [updateOrder_none_char db id tn nts (some did) ab hex,
        updateDiscountStep_found db id did ab _ d hd]
    refine ⟨_, rfl, ?_, ?_⟩
    · intro o hmem hoid
      rcases List.mem_map.mp hmem with ⟨o0, ho0, rfl⟩
      by_cases hc : (o0.order_id == id) = true
      · simp [hc]
      · rw [if_neg hc] at hoid
        exact absurd (by simpa using hoid) (by simpa using hc)
    · simp
  · intro d mth vf vu T
    rfl

/-- C4 counterexample: the active discount whose 100.00 threshold the
10.00 subtotal violates (and whose validity window is the past) is still
applied: discount_amount becomes 5.00, an OrderDiscount row is written —
not the claimed zero-discount silent skip. -/
theorem updateOrder_discount_applicability_counterexample :
    (updateOrder tenDB 1 none none none (some 4) none).toOption = some tenPost ∧
    orderDiscountAmount tenPost 1 = some 5 ∧
    (⟨1, 4, 5, none⟩ : OrderDiscountRow) ∈ tenPost.order_discounts ∧
    orderDiscountAmount tenPost 1 ≠ some 0 := by
  with_unfolding_all decide

/-- Witness for C4 (amended): the inactive discount is skipped with zero
discount and no OrderDiscount row. -/
theorem updateOrder_discount_applicability_witness :
    orderDiscountAmount
      (commit tenDB (updateOrder tenDB 1 none none none (some 3) none)) 1 = some 0 ∧
    (commit tenDB
      (updateOrder tenDB 1 none none none (some 3) none)).order_discounts.filter
        (fun r => r.order_id == 1) = [] := by
  obtain ⟨db', hok, hzero, hnil⟩ :=
    (updateOrder_discount_applicability tenDB 1 none none 3 none
      (by with_unfolding_all decide)).1 (by with_unfolding_all decide)
  have hc : commit tenDB (updateOrder tenDB 1 none none none (some 3) none) = db' := by
    rw [hok]
    rfl
  refine ⟨?_, by rw [hc]; exact hnil⟩
  have hfo : db'.orders.find? (fun r => r.order_id == 1)
      = some ⟨1, none, "pending", 10, 0, 10, none, none⟩ := by
    rw [← hc]
    with_unfolding_all decide
  have hom : (⟨1, none, "pending", 10, 0, 10, none, none⟩ : OrderRow) ∈ db'.orders := by
    rw [← hc]
    with_unfolding_all decide
  rw [hc, orderDiscountAmount, hfo]
  simp [hzero _ hom rfl]

/-! ## Claim C5 -/

theorem resolveOrderItems_ok_of_valid (menu : List MenuItemRow) (oid : Nat)
    (its : List ItemReq)
    (h : ∀ i ∈ its, (menu.find? (fun m => m.item_id == i.item_id)).isSome ∧ itemRowOk i) :
    ∃ rows, resolveOrderItems menu oid its = Except.ok rows := by
  induction its with
  | nil => exact ⟨[], rfl⟩
  | cons i rest ih =>
    rcases h i (by simp) with ⟨hres, hok⟩
    rcases Option.isSome_iff_exists.mp hres with ⟨m, hm⟩
    rcases ih (fun j hj => h j (by simp [hj])) with ⟨rows, hrows⟩
    refine ⟨({ order_id := oid, item_id := i.item_id, item_name := m.item_name,
               quantity := i.quantity, unit_price := round2 i.unit_price,
               item_total := round2 (i.quantity * i.unit_price),
               notes := i.notes } : OrderItemRow) :: rows, ?_⟩
    unfold resolveOrderItems
    rw [hm]
    dsimp only
    rw [if_pos hok, hrows]
    rfl

theorem resolveOrderItems_error_of_invalid (menu : List MenuItemRow) (oid : Nat)
    (its : List ItemReq) (i : ItemReq) (hi : i ∈ its)
    (h : menu.find? (fun m => m.item_id == i.item_id) = none ∨ ¬ itemRowOk i) :
    ∃ e, resolveOrderItems menu oid its = Except.error e := by
  induction its with
  | nil => cases hi
  | cons j rest ih =>
    unfold resolveOrderItems
    rcases List.mem_cons.mp hi with rfl | hmem
    · cases hm : menu.find? (fun m => m.item_id == i.item_id) with
      | none => exact ⟨_, rfl⟩
      | some m =>
        rcases h with hnone | hbad
        · rw [hm] at hnone
          cases hnone
        · dsimp only
          rw [if_neg hbad]
          exact ⟨_, rfl⟩
    · cases hm : menu.find? (fun m => m.item_id == j.item_id) with
      | none => exact ⟨_, rfl⟩
      | some m =>
        by_cases hok : itemRowOk j
        · dsimp only
          rw [if_pos hok]
          rcases ih hmem with ⟨e, he⟩
          rw [he]
          exact ⟨e, rfl⟩
        · dsimp only
          rw [if_neg hok]
          exact ⟨_, rfl⟩

/-- C5 (amended): createOrder does not validate the items list against
emptiness (an empty items array commits an order of zero totals); when
every item_id resolves and every item satisfies the order_items storage
constraints (whole-number quantity > 0 and a non-negative stored
unit_price), an Order is persisted with status 'pending',
discount_amount 0 and total_amount = final_amount = the DECIMAL(10,2)
rounding of the sum of quantity x unit_price over the items; when any
item_id is unknown or any item violates those storage constraints, the
call fails and no Order or OrderItem row is persisted (full rollback, no
partial orders). -/
theorem createOrder_spec (db : DB) (tn : Option String) (cid : Option Nat)
    (nts : Option String) (items : List ItemReq) :
    ((∀ i ∈ items,
        (db.menu_items.find? (fun m => m.item_id == i.item_id)).isSome ∧ itemRowOk i) →
      ∃ db', createOrder db tn cid nts items = Except.ok db' ∧
        db'.orders = db.orders ++
          [{ order_id := db.next_order_id, table_number := tn, status := "pending",
             total_amount :=
               round2 (calculateOrderTotals (items.map fun i => (i.quantity, i.unit_price))),
             discount_amount := 0,
             final_amount :=
               round2 (calculateOrderTotals (items.map fun i => (i.quantity, i.unit_price))),
             cashier_id := cid, notes := nts }]) ∧
    ((∃ i ∈ items,
        db.menu_items.find? (fun m => m.item_id == i.item_id) = none ∨ ¬ itemRowOk i) →
      (∃ e, createOrder db tn cid nts items = Except.error e) ∧
      commit db (createOrder db tn cid nts items) = db) := by
  constructor
  · intro hres
    rcases resolveOrderItems_ok_of_valid db.menu_items db.next_order_id items hres
      with ⟨rows, hrows⟩
    have hco : createOrder db tn cid nts items
        = Except.ok { db with
            orders := db.orders ++
              [{ order_id := db.next_order_id, table_number := tn, status := "pending",
                 total_amount :=
                   round2 (calculateOrderTotals (items.map fun i => (i.quantity, i.unit_price))),
                 discount_amount := 0,
                 final_amount :=
                   round2 (calculateOrderTotals (items.map fun i => (i.quantity, i.unit_price))),
                 cashier_id := cid, notes := nts }],
            order_items := db.order_items ++ rows,
            next_order_id := db.next_order_id + 1 } := by
      unfold createOrder
      dsimp only
      rw [hrows]
    exact ⟨_, hco, rfl⟩
  · rintro ⟨i, hi, hbad⟩
    rcases resolveOrderItems_error_of_invalid db.menu_items db.next_order_id items i hi hbad
      with ⟨e, he⟩
    have hco : createOrder db tn cid nts items = Except.error e := by
      unfold createOrder
      dsimp only
      rw [he]
    exact ⟨⟨e, hco⟩, by rw [hco]; rfl⟩

/-- C5 counterexample: a createOrder call with an empty items array is
not rejected — it commits an order with zero totals. -/
theorem createOrder_spec_counterexample :
    (createOrder demoDB none none none []).toOption = some emptyItemsPost ∧
    emptyItemsPost.orders = [⟨1, none, "pending", 0, 0, 0, none, none⟩] := by
  with_unfolding_all decide

/-- Witness for C5 (amended): an unknown item_id (99) rolls the call
back completely. -/
theorem createOrder_spec_witness :
    commit demoDB (createOrder demoDB none none none [⟨99, 1, 1, none⟩]) = demoDB :=
  ((createOrder_spec demoDB none none none [⟨99, 1, 1, none⟩]).2
    ⟨⟨99, 1, 1, none⟩, by simp, Or.inl (by with_unfolding_all decide)⟩).2

/-! ## Claim C8 -/

theorem length_filter_map_le {α : Type} (f : α → α) (p : α → Bool)
    (h : ∀ a, p (f a) = true → p a = true) (l : List α) :
    ((l.map f).filter p).length ≤ (l.filter p).length := by
  induction l with
  | nil => simp
  | cons a l ih =>
    simp only [List.map_cons, List.filter_cons]
    by_cases hfa : p (f a) = true
    · rw [if_pos hfa, if_pos (h a hfa)]
      simpa using ih
    · rw [if_neg hfa]
      by_cases hpa : p a = true
      · rw [if_pos hpa]
        exact le_trans ih (by simp)
      · rw [if_neg hpa]
        exact ih

theorem ShiftInv_start (db : DB) (u : Nat) (oc now : ℚ) (h : ShiftInv db) :
    ShiftInv (commit db (startShift db u oc now)) := by
  by_cases hact : db.cashier_shifts.any (fun s => s.user_id == u && s.shift_end.isNone) = true
  · have herr : startShift db u oc now = Except.error "User already has an active shift." := by
      unfold startShift
      rw [if_pos hact]
    rw [herr]
    exact h
  · have hok : startShift db u oc now = Except.ok { db with
        cashier_shifts := db.cashier_shifts ++
          [{ shift_id := db.next_shift_id, user_id := u, shift_start := now,
             shift_end := none, opening_cash := oc, closing_cash := none,
             cash_in := 0, cash_out := 0, sales_amount_cash := 0,
             sales_amount_card := 0, notes := none, reconciled := false }],
        next_shift_id := db.next_shift_id + 1 } := by
      unfold startShift
      rw [if_neg hact]
    rw [hok]
    intro v
    unfold activeShiftCount
    show ((db.cashier_shifts ++ _).filter _).length ≤ 1
    rw [List.filter_append]
    by_cases hv : v = u
    · subst hv
      have hempty : db.cashier_shifts.filter (fun s => s.user_id == v && s.shift_end.isNone) = [] := by
        apply List.filter_eq_nil_iff.mpr
        intro s hs hps
        exact hact (List.any_eq_true.mpr ⟨s, hs, hps⟩)
      rw [hempty]
      simp
    · have hone : List.filter (fun s => s.user_id == v && s.shift_end.isNone)
          [({ shift_id := db.next_shift_id, user_id := u, shift_start := now,
              shift_end := none, opening_cash := oc, closing_cash := none,
              cash_in := 0, cash_out := 0, sales_amount_cash := 0,
              sales_amount_card := 0, notes := none, reconciled := false } : ShiftRow)] = [] := by
        simp [Ne.symm hv]
      rw [hone]
      simpa using h v

theorem ShiftInv_stop (db : DB) (id : Nat) (cc : ℚ) (nts : Option String) (now : ℚ)
    (h : ShiftInv db) : ShiftInv (commit db (endShift db id cc nts now)) := by
  by_cases hk : db.cashier_shifts.any (fun s => s.shift_id == id && s.shift_end.isNone) = true
  · have hok : endShift db id cc nts now = Except.ok { db with
        cashier_shifts := db.cashier_shifts.map (fun s =>
          if s.shift_id == id && s.shift_end.isNone then
            { s with shift_end := some now, closing_cash := some cc, notes := nts }
          else s) } := by
      unfold endShift
      rw [if_pos hk]
    rw [hok]
    intro v
    unfold activeShiftCount
    refine le_trans (length_filter_map_le _ _ ?_ db.cashier_shifts) (h v)
    intro s hps
    by_cases hc : (s.shift_id == id && s.shift_end.isNone) = true
    · rw [if_pos hc] at hps
      simp at hps
    · rwa [if_neg hc] at hps
  · have herr : endShift db id cc nts now
        = Except.error "Active shift not found or already ended." := by
      unfold endShift
      rw [if_neg hk]
    rw [herr]
    exact h

theorem ShiftInv_adjust (db : DB) (id : Nat) (oc cc ci co : Option ℚ)
    (rc : Option Bool) (nts : Option String) (h : ShiftInv db) :
    ShiftInv (commit db (adjustShift db id oc cc ci co rc nts)) := by
  by_cases hk : db.cashier_shifts.any (fun s => s.shift_id == id) = true
  · have hok : adjustShift db id oc cc ci co rc nts = Except.ok { db with
        cashier_shifts := db.cashier_shifts.map (fun s =>
          if s.shift_id == id then
            { s with opening_cash := (oc.getD s.opening_cash),
                     closing_cash := coalesce cc s.closing_cash,
                     cash_in := ci.getD s.cash_in,
                     cash_out := co.getD s.cash_out,
                     reconciled := rc.getD s.reconciled,
                     notes := coalesce nts s.notes }
          else s) } := by
      unfold adjustShift
      rw [if_pos hk]
    rw [hok]
    intro v
    unfold activeShiftCount
    refine le_trans (length_filter_map_le _ _ ?_ db.cashier_shifts) (h v)
    intro s hps
    by_cases hc : (s.shift_id == id) = true
    · rw [if_pos hc] at hps
      simpa using hps
    · rwa [if_neg hc] at hps
  · have herr : adjustShift db id oc cc ci co rc nts = Except.error "Shift not found" := by
      unfold adjustShift
      rw [if_neg hk]
    rw [herr]
    exact h

theorem ShiftInv_ops (db : DB) (ops : List ShiftOp) (h : ShiftInv db) :
    ShiftInv (applyShiftOps db ops) := by
  induction ops generalizing db with
  | nil => exact h
  | cons op rest ih =>
    show ShiftInv (applyShiftOps (applyShiftOp db op) rest)
    apply ih
    cases op with
    | start u oc now => exact ShiftInv_start db u oc now h
    | stop id cc nts now => exact ShiftInv_stop db id cc nts now h
    | adjust id oc cc ci co rc nts => exact ShiftInv_adjust db id oc cc ci co rc nts h

/-- C8: starting from a store with at most one active shift per user,
any sequence of startShift / endShift / adjustShift operations preserves
that invariant; startShift fails when the user already has an open row
and otherwise inserts a fresh shift with the given opening_cash and
zeroed running totals; endShift leaves every already-closed row
untouched. -/
theorem shift_single_active (db : DB) (ops : List ShiftOp) (h : ShiftInv db) :
    ShiftInv (applyShiftOps db ops) ∧
    (∀ u oc now, (∃ s ∈ db.cashier_shifts, s.user_id = u ∧ s.shift_end = none) →
      ∃ e, startShift db u oc now = Except.error e) ∧
    (∀ u oc now, (∀ s ∈ db.cashier_shifts, s.user_id = u → s.shift_end ≠ none) →
      ∃ db', startShift db u oc now = Except.ok db' ∧
        ({ shift_id := db.next_shift_id, user_id := u, shift_start := now,
           shift_end := none, opening_cash := oc, closing_cash := none,
           cash_in := 0, cash_out := 0, sales_amount_cash := 0,
           sales_amount_card := 0, notes := none,
           reconciled := false } : ShiftRow) ∈ db'.cashier_shifts) ∧
    (∀ id cc nts now db', endShift db id cc nts now = Except.ok db' →
      ∀ s ∈ db.cashier_shifts, s.shift_end ≠ none → s ∈ db'.cashier_shifts) := by
  refine ⟨ShiftInv_ops db ops h, ?_, ?_, ?_⟩
  · intro u oc now ⟨s, hs, hu, he⟩
    have hact : db.cashier_shifts.any (fun x => x.user_id == u && x.shift_end.isNone) = true :=
      List.any_eq_true.mpr ⟨s, hs, by simp [hu, he]⟩
    refine ⟨"User already has an active shift.", ?_⟩
    unfold startShift
    rw [if_pos hact]
  · intro u oc now hno
    have hact : ¬ db.cashier_shifts.any (fun x => x.user_id == u && x.shift_end.isNone) = true := by
      intro hx
      rcases List.any_eq_true.mp hx with ⟨s, hs, hps⟩
      rcases (by simpa using hps : s.user_id = u ∧ s.shift_end.isNone = true) with ⟨h1, h2⟩
      exact hno s hs h1 (Option.isNone_iff_eq_none.mp h2)
    have hok : startShift db u oc now = Except.ok { db with
        cashier_shifts := db.cashier_shifts ++
          [{ shift_id := db.next_shift_id, user_id := u, shift_start := now,
             shift_end := none, opening_cash := oc, closing_cash := none,
             cash_in := 0, cash_out := 0, sales_amount_cash := 0,
             sales_amount_card := 0, notes := none, reconciled := false }],
        next_shift_id := db.next_shift_id + 1 } := by
      unfold startShift
      rw [if_neg hact]
    exact ⟨_, hok, by simp⟩
  · intro id cc nts now db' hok s hs hclosed
    unfold endShift at hok
    by_cases hk : db.cashier_shifts.any (fun x => x.shift_id == id && x.shift_end.isNone) = true
    · rw [if_pos hk] at hok
      cases hok
      have hfix : (if s.shift_id == id && s.shift_end.isNone then
          { s with shift_end := some now, closing_cash := some cc, notes := nts } else s) = s := by
        rw [if_neg]
        intro hcond
        rcases (by simpa using hcond : s.shift_id = id ∧ s.shift_end.isNone = true) with ⟨h1, h2⟩
        exact hclosed (Option.isNone_iff_eq_none.mp h2)
      show s ∈ List.map _ db.cashier_shifts
      rw [← hfix]
      exact List.mem_map_of_mem _ hs
    · rw [if_neg hk] at hok
      cases hok

/-- Witness for C8: the invariant holds concretely after a start / end /
start sequence for user 7 on the empty-shifts store. -/
theorem shift_single_active_witness :
    activeShiftCount (applyShiftOps demoDB
      [ShiftOp.start 7 50 0, ShiftOp.stop 1 40 none 1, ShiftOp.start 7 60 2]) 7 ≤ 1 :=
  (shift_single_active demoDB
    [ShiftOp.start 7 50 0, ShiftOp.stop 1 40 none 1, ShiftOp.start 7 60 2]
    (by intro u; simp [activeShiftCount, demoDB])).1 7

/-! ## Claim C2: characterizations of updateOrder's success branches -/

theorem updateOrder_none_char_upd (db : DB) (id : Nat) (tn nts : Option String)
    (did ab : Option Nat)
    (hex : db.orders.any (fun o => o.order_id == id) = true) :
    updateOrder db id tn nts none did ab
      = Except.ok (updResult db id tn nts did ab db.order_items (storedSubtotal db id)) :=
  updateOrder_none_char db id tn nts did ab hex

theorem updateOrder_items_char (db : DB) (id : Nat) (tn nts : Option String)
    (its : List ItemReq) (did ab : Option Nat) (rows : List OrderItemRow)
    (hne : its.isEmpty = false)
    (hres : resolveOrderItems db.menu_items id its = Except.ok rows)
    (hex : db.orders.any (fun o => o.order_id == id) = true) :
    updateOrder db id tn nts (some its) did ab
      = Except.ok (updResult db id tn nts did ab
          ((db.order_items.filter (fun r => ! (r.order_id == id))) ++ rows)
          (calculateOrderTotals (its.map fun i => (i.quantity, i.unit_price)))) := by
  unfold updateOrder updateItemsStep
  simp only [Option.getD_some, hne, Bool.false_eq_true, if_false]
  rw [hres]
  dsimp only
  rw [hex]
  simp [updResult]

theorem updateOrder_items_error (db : DB) (id : Nat) (tn nts : Option String)
    (its : List ItemReq) (did ab : Option Nat) (e : String)
    (hne : its.isEmpty = false)
    (hres : resolveOrderItems db.menu_items id its = Except.error e) :
    updateOrder db id tn nts (some its) did ab = Except.error e := by
  unfold updateOrder updateItemsStep
  simp only [Option.getD_some, hne, Bool.false_eq_true, if_false]
  rw [hres]

theorem updateOrder_not_found_err (db : DB) (id : Nat) (tn nts : Option String)
    (items : Option (List ItemReq)) (did ab : Option Nat)
    (hex : db.orders.any (fun o => o.order_id == id) = false) :
    ∃ e, updateOrder db id tn nts items did ab = Except.error e := by
  unfold updateOrder updateItemsStep
  by_cases hempty : (items.getD []).isEmpty = true
  · refine ⟨"Order not found", ?_⟩
    simp only [hempty, if_true]
    rw [hex]
    simp
  · simp only [hempty, Bool.false_eq_true, if_false]
    cases hres : resolveOrderItems db.menu_items id (items.getD []) with
    | error e =>
      exact ⟨e, rfl⟩
    | ok rows =>
      refine ⟨"Order not found", ?_⟩
      dsimp only
      rw [hex]
      simp

/-! ## Claim C2: the storage-rounding invariant is preserved -/

theorem RoundInv_updResult (db : DB) (id : Nat) (tn nts : Option String)
    (did ab : Option Nat) (newItems : List OrderItemRow) (T : ℚ)
    (h : RoundInv db) :
    RoundInv (updResult db id tn nts did ab newItems T) := by
  intro o ho
  rcases List.mem_map.mp ho with ⟨o0, ho0, rfl⟩
  by_cases hc : (o0.order_id == id) = true
  · refine ⟨T, (updateDiscountStep db id did ab T).1, ?_, ?_, ?_⟩ <;> simp [hc]
  · rcases h o0 ho0 with ⟨T0, D0, h1, h2, h3⟩
    exact ⟨T0, D0, by simp [hc, h1], by simp [hc, h2], by simp [hc, h3]⟩

theorem RoundInv_create (db : DB) (tn : Option String) (cid : Option Nat)
    (nts : Option String) (items : List ItemReq) (h : RoundInv db) :
    RoundInv (commit db (createOrder db tn cid nts items)) := by
  cases hres : resolveOrderItems db.menu_items db.next_order_id items with
  | error e =>
    have herr : createOrder db tn cid nts items = Except.error e := by
      unfold createOrder
      dsimp only
      rw [hres]
    rw [herr]
    exact h
  | ok rows =>
    have hco : createOrder db tn cid nts items
        = Except.ok { db with
            orders := db.orders ++
              [{ order_id := db.next_order_id, table_number := tn, status := "pending",
                 total_amount :=
                   round2 (calculateOrderTotals (items.map fun i => (i.quantity, i.unit_price))),
                 discount_amount := 0,
                 final_amount :=
                   round2 (calculateOrderTotals (items.map fun i => (i.quantity, i.unit_price))),
                 cashier_id := cid, notes := nts }],
            order_items := db.order_items ++ rows,
            next_order_id := db.next_order_id + 1 } := by
      unfold createOrder
      dsimp only
      rw [hres]
    rw [hco]
    intro o ho
    rcases List.mem_append.mp ho with hold | hnew
    · exact h o hold
    · rcases List.mem_singleton.mp hnew with rfl
      refine ⟨calculateOrderTotals (items.map fun i => (i.quantity, i.unit_price)), 0,
        rfl, round2_zero.symm, ?_⟩
      rw [sub_zero]

theorem RoundInv_update (db : DB) (id : Nat) (tn nts : Option String)
    (items : Option (List ItemReq)) (did ab : Option Nat) (h : RoundInv db) :
    RoundInv (commit db (updateOrder db id tn nts items did ab)) := by
  by_cases hex : db.orders.any (fun o => o.order_id == id) = true
  case neg =>
    rcases updateOrder_not_found_err db id tn nts items did ab
      (by simpa using hex) with ⟨e, he⟩
    rw [he]
    exact h
  case pos =>
  by_cases hempty : (items.getD []).isEmpty = true
  · have heq : updateOrder db id tn nts items did ab
        = updateOrder db id tn nts none did ab := by
      cases items with
      | none => rfl
      | some its =>
        cases its with
        | nil => rfl
        | cons i rest => simp at hempty
    rw [heq, updateOrder_none_char_upd db id tn nts did ab hex]
    exact RoundInv_updResult db id tn nts did ab db.order_items (storedSubtotal db id) h
  · have hits : ∃ its : List ItemReq, items = some its ∧ its.isEmpty = false := by
      cases items with
      | none => simp at hempty
      | some its => exact ⟨its, rfl, by simpa using hempty⟩
    rcases hits with ⟨its, rfl, hne⟩
    cases hres : resolveOrderItems db.menu_items id its with
    | error e =>
      rw [updateOrder_items_error db id tn nts its did ab e hne hres]
      exact h
    | ok rows =>
      rw [updateOrder_items_char db id tn nts its did ab rows hne hres hex]
      exact RoundInv_updResult db id tn nts did ab _ _ h

theorem RoundInv_pay (db : DB) (oid : Nat) (m : String) (amount : ℚ)
    (tx : Option String) (cid : Option Nat) (nts : Option String) (h : RoundInv db) :
    RoundInv (commit db (recordPayment db oid m amount tx cid nts)) := by
  by_cases hamt : 0 < amount
  · cases ho : db.orders.find? (fun r => r.order_id == oid) with
    | none =>
      have herr : recordPayment db oid m amount tx cid nts
          = Except.error "Order not found for payment." := by
        unfold recordPayment
        rw [if_pos hamt]
        dsimp only
        rw [ho]
      rw [herr]
      exact h
    | some o =>
      rw [recordPayment_ok_char db oid m amount tx cid nts o hamt ho]
      show RoundInv (payResult db oid m amount tx cid nts o)
      unfold payResult
      dsimp only
      split
      · intro r hr
        rcases List.mem_map.mp hr with ⟨r0, hr0, rfl⟩
        rcases h r0 hr0 with ⟨T0, D0, h1, h2, h3⟩
        by_cases hc : (r0.order_id == oid) = true
        · exact ⟨T0, D0, by simp [hc, h1], by simp [hc, h2], by simp [hc, h3]⟩
        · exact ⟨T0, D0, by simp [hc, h1], by simp [hc, h2], by simp [hc, h3]⟩
      · exact h
  · have herr : recordPayment db oid m amount tx cid nts
        = Except.error "payments amount constraint violated" := by
      unfold recordPayment
      rw [if_neg hamt]
    rw [herr]
    exact h

theorem RoundInv_ops (db : DB) (ops : List OrderOp) (h : RoundInv db) :
    RoundInv (applyOrderOps db ops) := by
  induction ops generalizing db with
  | nil => exact h
  | cons op rest ih =>
    show RoundInv (applyOrderOps (applyOrderOp db op) rest)
    apply ih
    cases op with
    | create tn cid nts items => exact RoundInv_create db tn cid nts items h
    | update id tn nts items did ab => exact RoundInv_update db id tn nts items did ab h
    | pay oid m amt tx cid nts => exact RoundInv_pay db oid m amt tx cid nts h

/-- C2 (amended): starting from a store satisfying the storage-rounding
invariant, after any sequence of createOrder, updateOrder and
recordPayment operations every order's stored amounts are the
DECIMAL(10,2) roundings `total_amount = round2 T`,
`discount_amount = round2 D`, `final_amount = round2 (T - D)` of the
exact total `T` and discount `D` its last write computed, and
consequently `final_amount` differs from
`total_amount - discount_amount` by at most one cent. -/
theorem order_totals_invariant (db : DB) (ops : List OrderOp) (h : RoundInv db) :
    RoundInv (applyOrderOps db ops) ∧
    ∀ o ∈ (applyOrderOps db ops).orders,
      |o.final_amount - (o.total_amount - o.discount_amount)| ≤ 1 / 100 := by
  have hops := RoundInv_ops db ops h
  refine ⟨hops, ?_⟩
  intro o ho
  rcases hops o ho with ⟨T, D, h1, h2, h3⟩
  rw [h1, h2, h3]
  exact cent_bound T D

/-- C2 counterexample: a 5 percent discount on a 0.10 order — PostgreSQL
stores the DECIMAL(10,2) roundings discount_amount 0.01 and final_amount
0.10, so final_amount differs from round2(total_amount -
discount_amount) = round2(0.09) = 0.09. -/
theorem order_totals_invariant_counterexample :
    orderTotalAmount ratPost 1 = some (1/10) ∧
    orderDiscountAmount ratPost 1 = some (1/100) ∧
    orderFinal ratPost 1 = some (1/10) ∧
    round2 ((1:ℚ)/10 - 1/100) = 9/100 ∧
    orderFinal ratPost 1 ≠ some (round2 ((1:ℚ)/10 - 1/100)) := by
  with_unfolding_all decide

/-- Witness for C2 (amended): at the same concrete store the books are
off by exactly the one cent the amended bound allows. -/
theorem order_totals_invariant_witness :
    orderFinal ratPost 1 = some (1/10) ∧
    orderDiscountAmount ratPost 1 = some (1/100) ∧
    |(1:ℚ)/10 - ((1:ℚ)/10 - 1/100)| ≤ 1/100 := by
  refine ⟨by with_unfolding_all decide, by with_unfolding_all decide, ?_⟩
  have hdemo : RoundInv demoDB := by
    intro o ho
    simp [demoDB] at ho
  obtain ⟨hinv, hbound⟩ := order_totals_invariant demoDB
    [OrderOp.create none none none [⟨1, 1, 1/10, none⟩],
     OrderOp.update 1 none none none (some 1) none] hdemo
  have hres := hbound ⟨1, none, "pending", 1/10, 1/100, 1/10, none, none⟩
    (by with_unfolding_all decide)
  simpa using hres

end RestaurantPos
